import Mathlib

/-!
Shallow embedding of `src/elos_google_search_mcp/server.py`: the credential
resolver `get_google_credentials`, the three search tools `google_search`,
`google_search_web`, `google_search_images`, and the health check
`get_search_health`.

Environment variables are modelled as `Option String` (`none` = unset).
External effects (file existence, service-account file loading, platform
default-credential discovery, and the remote Custom Search call) are
supplied by a `World` record, so each Python function becomes a total Lean
function of the environment and the world.  Python exceptions are modelled
by the `PyExc` type and `Except`; each search tool additionally returns the
list of remote requests it issued, so that claims about which remote calls
happen are statable.
-/

namespace ElosGoogleSearchMCP

/-- Python exception values relevant to the server: an `HttpError` raised by
the API client, or any other `Exception`; each carries its printed message
(the result of `str(e)`). -/
inductive PyExc where
  | httpError (msg : String)
  | otherError (msg : String)
deriving DecidableEq

/-- Result of calling `google.auth.default()`: a credential object (opaque,
modelled by a token), a raised `DefaultCredentialsError`, or some other
raised exception. -/
inductive DefaultOutcome where
  | success (cred : Nat)
  | noCredentials
  | otherExc (e : PyExc)
deriving DecidableEq

/-- The environment variables read by the server.  `none` means unset,
`some s` means set to the string `s` (possibly empty). -/
structure Env where
  googleApplicationCredentials : Option String
  googleApiKey : Option String
  googleCseId : Option String
deriving DecidableEq

/-- Python truthiness of `os.getenv(...)`: `None` and the empty string are
falsy, any other string is truthy. -/
def pyTruthyStr : Option String → Bool
  | none => false
  | some s => !s.isEmpty

/-- The value returned by `get_google_credentials`: a service-account
credential object, an API-key string, or a platform default credential
object.  Credential objects are opaque and modelled by tokens. -/
inductive Credential where
  | serviceAccount (cred : Nat)
  | apiKey (key : String)
  | defaultCred (cred : Nat)
deriving DecidableEq

/-- Python truthiness of the resolver result as tested by
`if not credentials`: `None` is falsy, a credential object is truthy, a
string is truthy iff non-empty. -/
def pyTruthyCred : Option Credential → Bool
  | none => false
  | some (.serviceAccount _) => true
  | some (.apiKey k) => !k.isEmpty
  | some (.defaultCred _) => true

/-- The parameters of one `service.list(...).execute()` call to the Custom
Search endpoint. -/
structure CseRequest where
  q : String
  cx : String
  num : Int
  searchType : Option String
deriving DecidableEq

/-- One element of the `items` list of a Custom Search API response;
each field may be missing.  The image metadata mapping is modelled as an
association list. -/
structure ApiItem where
  title : Option String
  link : Option String
  snippet : Option String
  image : Option (List (String × String))
deriving DecidableEq

/-- A Custom Search API response: the `items` field may be missing. -/
structure ApiResponse where
  items : Option (List ApiItem)
deriving DecidableEq

/-- The external world: file existence, service-account file loading
(`none` models a raised exception during loading, which the resolver
catches), the outcome of default-credential discovery, and the remote
Custom Search endpoint. -/
structure World where
  fileExists : String → Bool
  loadServiceAccount : String → Option Nat
  defaultOutcome : DefaultOutcome
  execute : CseRequest → Except PyExc ApiResponse

/-- Steps 2 and 3 of `get_google_credentials`: try the `GOOGLE_API_KEY`
environment variable, then platform default credentials.
`DefaultCredentialsError` is caught and yields `None`; any other exception
from `default()` propagates. -/
def resolveAfterServiceAccount (env : Env) (w : World) :
    Except PyExc (Option Credential) :=
  if pyTruthyStr env.googleApiKey then
    .ok (some (.apiKey (env.googleApiKey.getD "")))
  else
    match w.defaultOutcome with
    | .success c => .ok (some (.defaultCred c))
    | .noCredentials => .ok none
    | .otherExc e => .error e

/-- Embedding of `get_google_credentials` (server.py lines 20-41).  If
`GOOGLE_APPLICATION_CREDENTIALS` is truthy and the file exists, try to load
a service-account credential; any exception during loading is caught and
resolution falls through to the API-key step. -/
def get_google_credentials (env : Env) (w : World) :
    Except PyExc (Option Credential) :=
  if pyTruthyStr env.googleApplicationCredentials &&
      w.fileExists (env.googleApplicationCredentials.getD "") then
    match w.loadServiceAccount (env.googleApplicationCredentials.getD "") with
    | some c => .ok (some (.serviceAccount c))
    | none => resolveAfterServiceAccount env w
  else
    resolveAfterServiceAccount env w

/-- A normalized general/web search result: title, link, snippet, source. -/
structure SearchResult where
  title : String
  link : String
  snippet : String
  source : String
deriving DecidableEq

/-- A normalized image search result: title, link, image metadata, source. -/
structure ImageResult where
  title : String
  link : String
  image : List (String × String)
  source : String
deriving DecidableEq

/-- Return value of `google_search` / `google_search_web`: a result list or
an error mapping.  The tool never raises, so the type has no exception
alternative. -/
inductive SearchReturn where
  | results (rs : List SearchResult)
  | error (msg : String)
deriving DecidableEq

/-- Return value of `google_search_images`. -/
inductive ImageReturn where
  | results (rs : List ImageResult)
  | error (msg : String)
deriving DecidableEq

/-- The two `except` clauses of each search tool, applied to a caught
exception: `HttpError` maps to a "Google API error" value, any other
exception to an "Unexpected error" value. -/
def searchCatch : PyExc → SearchReturn
  | .httpError m => .error ("Google API error: " ++ m)
  | .otherError m => .error ("Unexpected error: " ++ m)

/-- The `except` clauses of `google_search_images`. -/
def imageCatch : PyExc → ImageReturn
  | .httpError m => .error ("Google API error: " ++ m)
  | .otherError m => .error ("Unexpected error: " ++ m)

/-- The remote request issued by `google_search`: count clamped with
`min(num_results, 10)`, no `searchType` parameter. -/
def generalReq (env : Env) (query : String) (num_results : Int) : CseRequest :=
  { q := query, cx := env.googleCseId.getD "",
    num := min num_results 10, searchType := none }

/-- The remote request issued by `google_search_web`: count clamped with
`min(num_results, 5)`, `searchType='web'`. -/
def webReq (env : Env) (query : String) (num_results : Int) : CseRequest :=
  { q := query, cx := env.googleCseId.getD "",
    num := min num_results 5, searchType := some "web" }

/-- The remote request issued by `google_search_images`: count clamped with
`min(num_results, 5)`, `searchType='image'`. -/
def imageReq (env : Env) (query : String) (num_results : Int) : CseRequest :=
  { q := query, cx := env.googleCseId.getD "",
    num := min num_results 5, searchType := some "image" }

/-- Embedding of `google_search` (server.py lines 43-93).  Returns the
tool's value together with the list of remote requests it issued. -/
def google_search (env : Env) (w : World) (query : String)
    (num_results : Int) : SearchReturn × List CseRequest :=
  match get_google_credentials env w with
  | .error e => (searchCatch e, [])
  | .ok credentials =>
    if !pyTruthyCred credentials then
      (.error "No Google credentials available", [])
    else
      match credentials with
      | some (.apiKey _) =>
        if pyTruthyStr env.googleCseId then
          let req := generalReq env query num_results
          match w.execute req with
          | .ok resp =>
            (.results ((resp.items.getD []).map fun item =>
              { title := item.title.getD "", link := item.link.getD "",
                snippet := item.snippet.getD "",
                source := "Google Custom Search" }), [req])
          | .error e => (searchCatch e, [req])
        else
          (.error
            "GOOGLE_CSE_ID environment variable not set for Custom Search API",
            [])
      | _ =>
        (.error
          "Service account authentication not yet implemented for search API",
          [])

/-- Embedding of `google_search_web` (server.py lines 95-143). -/
def google_search_web (env : Env) (w : World) (query : String)
    (num_results : Int) : SearchReturn × List CseRequest :=
  match get_google_credentials env w with
  | .error e => (searchCatch e, [])
  | .ok credentials =>
    if !pyTruthyCred credentials then
      (.error "No Google credentials available", [])
    else
      match credentials with
      | some (.apiKey _) =>
        if pyTruthyStr env.googleCseId then
          let req := webReq env query num_results
          match w.execute req with
          | .ok resp =>
            (.results ((resp.items.getD []).map fun item =>
              { title := item.title.getD "", link := item.link.getD "",
                snippet := item.snippet.getD "",
                source := "Google Web Search" }), [req])
          | .error e => (searchCatch e, [req])
        else
          (.error "GOOGLE_CSE_ID environment variable not set", [])
      | _ =>
        (.error "Service account authentication not yet implemented", [])

/-- Embedding of `google_search_images` (server.py lines 145-193). -/
def google_search_images (env : Env) (w : World) (query : String)
    (num_results : Int) : ImageReturn × List CseRequest :=
  match get_google_credentials env w with
  | .error e => (imageCatch e, [])
  | .ok credentials =>
    if !pyTruthyCred credentials then
      (.error "No Google credentials available", [])
    else
      match credentials with
      | some (.apiKey _) =>
        if pyTruthyStr env.googleCseId then
          let req := imageReq env query num_results
          match w.execute req with
          | .ok resp =>
            (.results ((resp.items.getD []).map fun item =>
              { title := item.title.getD "", link := item.link.getD "",
                image := item.image.getD [],
                source := "Google Image Search" }), [req])
          | .error e => (imageCatch e, [req])
        else
          (.error "GOOGLE_CSE_ID environment variable not set", [])
      | _ =>
        (.error "Service account authentication not yet implemented", [])

/-- The dictionary returned by `get_search_health`, with the nested
`environment_variables` snapshot flattened into three fields. -/
structure HealthStatus where
  status : String
  credentials_available : Bool
  search_engine_id_set : Bool
  env_google_application_credentials : Option String
  env_google_api_key : Option String
  env_google_cse_id : Option String
deriving DecidableEq

/-- Embedding of `get_search_health` (server.py lines 195-215).  The body is
not wrapped in a `try`, so an exception propagating out of
`get_google_credentials` propagates out of the health check. -/
def get_search_health (env : Env) (w : World) : Except PyExc HealthStatus :=
  match get_google_credentials env w with
  | .error e => .error e
  | .ok credentials =>
    .ok
      { status := if pyTruthyCred credentials then "healthy" else "unhealthy",
        credentials_available := pyTruthyCred credentials,
        search_engine_id_set := pyTruthyStr env.googleCseId,
        env_google_application_credentials := env.googleApplicationCredentials,
        env_google_api_key :=
          if pyTruthyStr env.googleApiKey then some "***" else none,
        env_google_cse_id := env.googleCseId }

/-! Concrete environments and worlds used to instantiate theorems with
hypotheses. -/

/-- An environment with no variables set. -/
def envNone : Env := ⟨none, none, none⟩

/-- An environment with an API key and a search-engine identifier. -/
def envKey : Env := ⟨none, some "k", some "cse"⟩

/-- An environment with an API key but no search-engine identifier. -/
def envKeyNoCse : Env := ⟨none, some "k", none⟩

/-- An environment with only a service-account file path set. -/
def envSA : Env := ⟨some "sa.json", none, none⟩

/-- A synthetic API response with two items. -/
def respTwo : ApiResponse :=
  ⟨some [⟨some "t1", some "l1", some "s1", none⟩, ⟨none, none, none, none⟩]⟩

/-- A world where no file exists, default discovery finds nothing, and the
remote endpoint answers with `respTwo`. -/
def wOk : World := ⟨fun _ => false, fun _ => none, .noCredentials,
  fun _ => .ok respTwo⟩

/-- A world where the service-account file exists and loads to token 7. -/
def wSA : World := ⟨fun _ => true, fun _ => some 7, .noCredentials,
  fun _ => .ok ⟨none⟩⟩

/-- A world where the remote endpoint raises an `HttpError`. -/
def wHttpErr : World := ⟨fun _ => false, fun _ => none, .noCredentials,
  fun _ => .error (.httpError "boom")⟩

/-- A world where default-credential discovery raises an exception other
than `DefaultCredentialsError`. -/
def wDefaultExc : World := ⟨fun _ => false, fun _ => none,
  .otherExc (.otherError "token refresh failed"), fun _ => .ok ⟨none⟩⟩

/-- A world where default-credential discovery succeeds with token 3. -/
def wDefaultCred : World := ⟨fun _ => false, fun _ => none, .success 3,
  fun _ => .ok ⟨none⟩⟩

/-- Helper: any credential returned by `resolveAfterServiceAccount` is
Python-truthy (in particular an API key is returned only when non-empty). -/
theorem resolveAfterServiceAccount_ok_truthy (env : Env) (w : World)
    (c : Credential) (h : resolveAfterServiceAccount env w = .ok (some c)) :
    pyTruthyCred (some c) = true := by
  unfold resolveAfterServiceAccount at h
  by_cases hk : pyTruthyStr env.googleApiKey = true
  · rw [if_pos hk] at h
    cases h
    cases henv : env.googleApiKey with
    | none => rw [henv] at hk; simp [pyTruthyStr] at hk
    | some s =>
      rw [henv] at hk
      simpa [pyTruthyCred, pyTruthyStr, henv] using hk
  · rw [if_neg hk] at h
    cases hd : w.defaultOutcome with
    | success c2 => rw [hd] at h; cases h; rfl
    | noCredentials => rw [hd] at h; cases h
    | otherExc e => rw [hd] at h; cases h

/-- Helper: any credential returned by `get_google_credentials` is
Python-truthy, so tools never take the `not credentials` branch on a
present credential. -/
theorem get_google_credentials_ok_truthy (env : Env) (w : World)
    (c : Credential) (h : get_google_credentials env w = .ok (some c)) :
    pyTruthyCred (some c) = true := by
  unfold get_google_credentials at h
  by_cases hb : (pyTruthyStr env.googleApplicationCredentials &&
      w.fileExists (env.googleApplicationCredentials.getD "")) = true
  · rw [if_pos hb] at h
    cases hl : w.loadServiceAccount (env.googleApplicationCredentials.getD "")
      with
    | some c2 => rw [hl] at h; cases h; rfl
    | none =>
      rw [hl] at h
      exact resolveAfterServiceAccount_ok_truthy env w c h
  · rw [if_neg hb] at h
    exact resolveAfterServiceAccount_ok_truthy env w c h

/-- C1: credential resolution respects the fixed priority order.  If the
service-account path variable is truthy, the file exists and it loads
successfully, the service-account credential is returned.  Otherwise (the
variable unset/empty, the file missing, or the load failing — a load
failure falls through rather than aborting), a truthy API key wins next,
and otherwise default discovery decides: its credential on success, `None`
on a `DefaultCredentialsError`. -/
theorem C1_credential_resolution_order (env : Env) (w : World) :
    (∀ c, pyTruthyStr env.googleApplicationCredentials = true →
      w.fileExists (env.googleApplicationCredentials.getD "") = true →
      w.loadServiceAccount (env.googleApplicationCredentials.getD "") =
        some c →
      get_google_credentials env w = .ok (some (.serviceAccount c))) ∧
    ((pyTruthyStr env.googleApplicationCredentials = false ∨
      w.fileExists (env.googleApplicationCredentials.getD "") = false ∨
      w.loadServiceAccount (env.googleApplicationCredentials.getD "") =
        none) →
      ((pyTruthyStr env.googleApiKey = true →
        get_google_credentials env w =
          .ok (some (.apiKey (env.googleApiKey.getD "")))) ∧
      (pyTruthyStr env.googleApiKey = false →
        (∀ c, w.defaultOutcome = .success c →
          get_google_credentials env w = .ok (some (.defaultCred c))) ∧
        (w.defaultOutcome = .noCredentials →
          get_google_credentials env w = .ok none)))) := by
  constructor
  · intro c h1 h2 h3
    simp [get_google_credentials, h1, h2, h3]
  · intro hfall
    have hstep : get_google_credentials env w =
        resolveAfterServiceAccount env w := by
      unfold get_google_credentials
      rcases hfall with h | h | h
      · simp [h]
      · simp [h]
      · by_cases hb : (pyTruthyStr env.googleApplicationCredentials &&
            w.fileExists (env.googleApplicationCredentials.getD "")) = true
        · simp [hb, h]
        · simp [hb]
    refine ⟨fun hk => ?_, fun hk => ⟨fun c hd => ?_, fun hd => ?_⟩⟩
    · rw [hstep]; simp [resolveAfterServiceAccount, hk]
    · rw [hstep]; simp [resolveAfterServiceAccount, hk, hd]
    · rw [hstep]; simp [resolveAfterServiceAccount, hk, hd]

/-- Witness for C1 at a concrete environment: a set path, an existing file
and a successful load yield the service-account credential. -/
theorem C1_credential_resolution_order_witness :
    get_google_credentials envSA wSA =
      .ok (some (.serviceAccount 7)) :=
  (C1_credential_resolution_order envSA wSA).1 7 (by decide) rfl rfl

/-- C2: when credential resolution returns `None`, each of the three search
tools returns exactly the mapping with error message "No Google credentials
available", issues no remote request, and (being a total function into its
return type) raises no exception. -/
theorem C2_no_credentials_error (env : Env) (w : World) (query : String)
    (num_results : Int)
    (h : get_google_credentials env w = .ok none) :
    google_search env w query num_results =
      (.error "No Google credentials available", []) ∧
    google_search_web env w query num_results =
      (.error "No Google credentials available", []) ∧
    google_search_images env w query num_results =
      (.error "No Google credentials available", []) := by
  unfold google_search google_search_web google_search_images
  rw [h]
  simp [pyTruthyCred]

/-- Witness for C2 at a concrete environment with no credential source. -/
theorem C2_no_credentials_error_witness :
    google_search envNone wOk "q" 1 =
      (.error "No Google credentials available", []) ∧
    google_search_web envNone wOk "q" 1 =
      (.error "No Google credentials available", []) ∧
    google_search_images envNone wOk "q" 1 =
      (.error "No Google credentials available", []) :=
  C2_no_credentials_error envNone wOk "q" 1 rfl

/-- C3: with an API-key credential and a truthy search-engine identifier,
the remote request issued carries count `min(num_results, 10)` and no type
selector for the general tool, and count `min(num_results, 5)` with type
selector "web" respectively "image" for the web and image tools; exactly
one remote request is issued in each case. -/
theorem C3_count_clamping_and_type (env : Env) (w : World) (query : String)
    (num_results : Int) (key : String)
    (hc : get_google_credentials env w = .ok (some (.apiKey key)))
    (hcse : pyTruthyStr env.googleCseId = true) :
    (google_search env w query num_results).2 =
      [{ q := query, cx := env.googleCseId.getD "",
         num := min num_results 10, searchType := none }] ∧
    (google_search_web env w query num_results).2 =
      [{ q := query, cx := env.googleCseId.getD "",
         num := min num_results 5, searchType := some "web" }] ∧
    (google_search_images env w query num_results).2 =
      [{ q := query, cx := env.googleCseId.getD "",
         num := min num_results 5, searchType := some "image" }] := by
  have ht := get_google_credentials_ok_truthy env w _ hc
  refine ⟨?_, ?_, ?_⟩
  · unfold google_search
    rw [hc]
    simp only [ht, Bool.not_true, Bool.false_eq_true, if_false, hcse,
      if_true]
    cases hx : w.execute (generalReq env query num_results) <;>
      simp [hx, generalReq]
  · unfold google_search_web
    rw [hc]
    simp only [ht, Bool.not_true, Bool.false_eq_true, if_false, hcse,
      if_true]
    cases hx : w.execute (webReq env query num_results) <;>
      simp [hx, webReq]
  · unfold google_search_images
    rw [hc]
    simp only [ht, Bool.not_true, Bool.false_eq_true, if_false, hcse,
      if_true]
    cases hx : w.execute (imageReq env query num_results) <;>
      simp [hx, imageReq]

/-- Witness for C3 at a concrete environment: a request for 100 results
issues a remote general-search request for `min 100 10` results with no
type selector. -/
theorem C3_count_clamping_and_type_witness :
    (google_search envKey wOk "q" 100).2 =
      [{ q := "q", cx := envKey.googleCseId.getD "",
         num := min (100 : Int) 10, searchType := none }] :=
  (C3_count_clamping_and_type envKey wOk "q" 100 "k" rfl (by decide)).1

/-- C4: on a well-formed remote response, the general tool returns one
`SearchResult` per item of the `items` list, in order, with title, link and
snippet copied (defaulting to the empty string) and source set to "Google
Custom Search"; a response with no `items` field yields the empty list, and
a response with an `items` list yields exactly as many results as items. -/
theorem C4_general_result_mapping (env : Env) (w : World) (query : String)
    (num_results : Int) (key : String) (resp : ApiResponse)
    (hc : get_google_credentials env w = .ok (some (.apiKey key)))
    (hcse : pyTruthyStr env.googleCseId = true)
    (hx : w.execute (generalReq env query num_results) = .ok resp) :
    (google_search env w query num_results).1 =
      .results ((resp.items.getD []).map fun item =>
        { title := item.title.getD "", link := item.link.getD "",
          snippet := item.snippet.getD "",
          source := "Google Custom Search" }) ∧
    (resp.items = none →
      (google_search env w query num_results).1 = .results []) ∧
    (∀ items, resp.items = some items →
      ∃ rs, (google_search env w query num_results).1 = .results rs ∧
        rs.length = items.length) := by
  have ht := get_google_credentials_ok_truthy env w _ hc
  have h1 : (google_search env w query num_results).1 =
      .results ((resp.items.getD []).map fun item =>
        { title := item.title.getD "", link := item.link.getD "",
          snippet := item.snippet.getD "",
          source := "Google Custom Search" }) := by
    unfold google_search
    rw [hc]
    simp [ht, hcse, hx]
  refine ⟨h1, fun hi => ?_, fun items hi => ?_⟩
  · rw [h1, hi]; rfl
  · exact ⟨_, h1, by simp [hi]⟩

/-- Witness for C4 at a concrete response with two items: the general tool
returns exactly two results with fields copied and defaulted. -/
theorem C4_general_result_mapping_witness :
    (google_search envKey wOk "q" 3).1 =
      .results ((respTwo.items.getD []).map fun item =>
        { title := item.title.getD "", link := item.link.getD "",
          snippet := item.snippet.getD "",
          source := "Google Custom Search" }) :=
  (C4_general_result_mapping envKey wOk "q" 3 "k" respTwo rfl (by decide)
    rfl).1

/-- C5: with an API-key credential but an unset or empty search-engine
identifier, each tool returns an error whose message mentions
GOOGLE_CSE_ID, and no remote request is issued (empty request trace). -/
theorem C5_missing_cse_id (env : Env) (w : World) (query : String)
    (num_results : Int) (key : String)
    (hc : get_google_credentials env w = .ok (some (.apiKey key)))
    (hcse : pyTruthyStr env.googleCseId = false) :
    (∃ rest, google_search env w query num_results =
      (.error ("GOOGLE_CSE_ID" ++ rest), [])) ∧
    (∃ rest, google_search_web env w query num_results =
      (.error ("GOOGLE_CSE_ID" ++ rest), [])) ∧
    (∃ rest, google_search_images env w query num_results =
      (.error ("GOOGLE_CSE_ID" ++ rest), [])) := by
  have ht := get_google_credentials_ok_truthy env w _ hc
  refine ⟨⟨" environment variable not set for Custom Search API", ?_⟩,
    ⟨" environment variable not set", ?_⟩,
    ⟨" environment variable not set", ?_⟩⟩
  · unfold google_search
    rw [hc]
    simp [ht, hcse]
  · unfold google_search_web
    rw [hc]
    simp [ht, hcse]
  · unfold google_search_images
    rw [hc]
    simp [ht, hcse]

/-- Witness for C5 at a concrete environment with an API key and no
search-engine identifier. -/
theorem C5_missing_cse_id_witness :
    ∃ rest, google_search envKeyNoCse wOk "q" 1 =
      (.error ("GOOGLE_CSE_ID" ++ rest), []) :=
  (C5_missing_cse_id envKeyNoCse wOk "q" 1 "k" rfl (by decide)).1

/-- C6: every failure path of a search tool returns a structured error
value instead of raising.  An exception escaping the credential resolver is
caught by the tool's handlers, an exception from the remote call is caught
likewise, and the handlers map an `HttpError` to "Google API error: ..."
and any other exception to "Unexpected error: ...".  (No exception
propagates: each tool is a total function into its return type.) -/
theorem C6_exception_handling (env : Env) (w : World) (query : String)
    (num_results : Int) :
    (∀ e, get_google_credentials env w = .error e →
      google_search env w query num_results = (searchCatch e, []) ∧
      google_search_web env w query num_results = (searchCatch e, []) ∧
      google_search_images env w query num_results = (imageCatch e, [])) ∧
    (∀ key, get_google_credentials env w = .ok (some (.apiKey key)) →
      pyTruthyStr env.googleCseId = true →
      ∀ e,
        (w.execute (generalReq env query num_results) = .error e →
          (google_search env w query num_results).1 = searchCatch e) ∧
        (w.execute (webReq env query num_results) = .error e →
          (google_search_web env w query num_results).1 = searchCatch e) ∧
        (w.execute (imageReq env query num_results) = .error e →
          (google_search_images env w query num_results).1 =
            imageCatch e)) ∧
    (∀ m, searchCatch (.httpError m) = .error ("Google API error: " ++ m) ∧
      searchCatch (.otherError m) = .error ("Unexpected error: " ++ m) ∧
      imageCatch (.httpError m) = .error ("Google API error: " ++ m) ∧
      imageCatch (.otherError m) = .error ("Unexpected error: " ++ m)) := by
  refine ⟨fun e he => ?_, fun key hc hcse e => ?_,
    fun m => ⟨rfl, rfl, rfl, rfl⟩⟩
  · unfold google_search google_search_web google_search_images
    rw [he]
    exact ⟨rfl, rfl, rfl⟩
  · have ht := get_google_credentials_ok_truthy env w _ hc
    refine ⟨fun hx => ?_, fun hx => ?_, fun hx => ?_⟩
    · unfold google_search
      rw [hc]
      simp [ht, hcse, hx]
    · unfold google_search_web
      rw [hc]
      simp [ht, hcse, hx]
    · unfold google_search_images
      rw [hc]
      simp [ht, hcse, hx]

/-- Witness for C6 at a concrete world whose remote endpoint raises an
`HttpError`: the general tool returns the mapped API error value. -/
theorem C6_exception_handling_witness :
    (google_search envKey wHttpErr "q" 1).1 =
      searchCatch (.httpError "boom") :=
  (((C6_exception_handling envKey wHttpErr "q" 1).2.1 "k" rfl (by decide)
    (.httpError "boom")).1) rfl

/-- C7: when resolution returns a present credential that is not an API-key
string (service-account or default credential), each tool returns its fixed
"Service account authentication not yet implemented" error value and issues
no remote request. -/
theorem C7_non_api_key_credential (env : Env) (w : World) (query : String)
    (num_results : Int) (c : Credential)
    (hc : get_google_credentials env w = .ok (some c))
    (hna : ∀ k, c ≠ .apiKey k) :
    google_search env w query num_results =
      (.error
        "Service account authentication not yet implemented for search API",
        []) ∧
    google_search_web env w query num_results =
      (.error "Service account authentication not yet implemented", []) ∧
    google_search_images env w query num_results =
      (.error "Service account authentication not yet implemented", []) := by
  cases c with
  | apiKey k => exact absurd rfl (hna k)
  | serviceAccount t =>
    unfold google_search google_search_web google_search_images
    rw [hc]
    simp [pyTruthyCred]
  | defaultCred t =>
    unfold google_search google_search_web google_search_images
    rw [hc]
    simp [pyTruthyCred]

/-- Witness for C7 at a concrete world where default discovery yields a
(non-string) default credential object. -/
theorem C7_non_api_key_credential_witness :
    google_search envNone wDefaultCred "q" 1 =
      (.error
        "Service account authentication not yet implemented for search API",
        []) ∧
    google_search_web envNone wDefaultCred "q" 1 =
      (.error "Service account authentication not yet implemented", []) ∧
    google_search_images envNone wDefaultCred "q" 1 =
      (.error "Service account authentication not yet implemented", []) :=
  C7_non_api_key_credential envNone wDefaultCred "q" 1 (.defaultCred 3) rfl
    (fun k h => by simp at h)

/-- C8: with no service-account path and a truthy API key, the health check
reports status "healthy", `credentials_available = true`,
`search_engine_id_set` mirroring the identifier's truthiness, and the API
key field holding only the fixed placeholder "***" rather than the raw key;
more generally, for every environment the reported status is "healthy"
exactly when credential resolution returns a present credential. -/
theorem C8_health_check_redaction (env : Env) (w : World)
    (hsa : env.googleApplicationCredentials = none)
    (hkey : pyTruthyStr env.googleApiKey = true) :
    get_search_health env w = .ok
      { status := "healthy", credentials_available := true,
        search_engine_id_set := pyTruthyStr env.googleCseId,
        env_google_application_credentials := none,
        env_google_api_key := some "***",
        env_google_cse_id := env.googleCseId } ∧
    (∀ env2 w2 h, get_search_health env2 w2 = .ok h →
      (h.status = "healthy" ↔
        ∃ c, get_google_credentials env2 w2 = .ok (some c))) := by
  constructor
  · have hres : get_google_credentials env w =
        .ok (some (.apiKey (env.googleApiKey.getD ""))) := by
      have h0 : pyTruthyStr (none : Option String) = false := rfl
      simp [get_google_credentials, hsa, h0,
        resolveAfterServiceAccount, hkey]
    have ht : pyTruthyCred (some (.apiKey (env.googleApiKey.getD ""))) =
        true := by
      cases hk2 : env.googleApiKey with
      | none => rw [hk2] at hkey; simp [pyTruthyStr] at hkey
      | some s => rw [hk2] at hkey; simpa [pyTruthyCred, pyTruthyStr]
          using hkey
    unfold get_search_health
    rw [hres]
    simp [ht, hkey, hsa]
  · intro env2 w2 h hh
    unfold get_search_health at hh
    cases hres2 : get_google_credentials env2 w2 with
    | error e => rw [hres2] at hh; cases hh
    | ok credentials =>
      rw [hres2] at hh
      injection hh with hh2
      subst hh2
      constructor
      · intro hst
        by_cases hb : pyTruthyCred credentials = true
        · cases credentials with
          | none => simp [pyTruthyCred] at hb
          | some c => exact ⟨c, rfl⟩
        · simp only [hb, if_false] at hst
          exact absurd hst (by decide)
      · rintro ⟨c, hc2⟩
        injection hc2 with hc3
        subst hc3
        have ht2 := get_google_credentials_ok_truthy env2 w2 c hres2
        simp [ht2]

/-- Witness for C8 at a concrete environment with only an API key and a
search-engine identifier set. -/
theorem C8_health_check_redaction_witness :
    get_search_health envKey wOk = .ok
      { status := "healthy", credentials_available := true,
        search_engine_id_set := pyTruthyStr envKey.googleCseId,
        env_google_application_credentials := none,
        env_google_api_key := some "***",
        env_google_cse_id := envKey.googleCseId } :=
  (C8_health_check_redaction envKey wOk rfl (by decide)).1

/-- C9: when the service-account step falls through, the API key is not
truthy, and default-credential discovery raises an exception other than
`DefaultCredentialsError`, the resolver propagates that exception, and
since `get_search_health` calls the resolver outside any handler, the
exception propagates out of the health check instead of yielding a
`HealthStatus` value. -/
theorem C9_default_exception_propagates (env : Env) (w : World) (e : PyExc)
    (hsa : pyTruthyStr env.googleApplicationCredentials = false ∨
      w.fileExists (env.googleApplicationCredentials.getD "") = false ∨
      w.loadServiceAccount (env.googleApplicationCredentials.getD "") =
        none)
    (hkey : pyTruthyStr env.googleApiKey = false)
    (hd : w.defaultOutcome = .otherExc e) :
    get_google_credentials env w = .error e ∧
    get_search_health env w = .error e := by
  have hres : get_google_credentials env w = .error e := by
    have hstep : get_google_credentials env w =
        resolveAfterServiceAccount env w := by
      unfold get_google_credentials
      rcases hsa with h | h | h
      · simp [h]
      · simp [h]
      · by_cases hb : (pyTruthyStr env.googleApplicationCredentials &&
            w.fileExists (env.googleApplicationCredentials.getD "")) = true
        · simp [hb, h]
        · simp [hb]
    rw [hstep]
    simp [resolveAfterServiceAccount, hkey, hd]
  refine ⟨hres, ?_⟩
  unfold get_search_health
  rw [hres]

/-- Witness for C9 at a concrete world where default discovery raises a
non-`DefaultCredentialsError` exception. -/
theorem C9_default_exception_propagates_witness :
    get_google_credentials envNone wDefaultExc =
      .error (.otherError "token refresh failed") ∧
    get_search_health envNone wDefaultExc =
      .error (.otherError "token refresh failed") :=
  C9_default_exception_propagates envNone wDefaultExc
    (.otherError "token refresh failed") (Or.inl (by decide)) (by decide)
    rfl

/-- C10: whenever the service-account path variable is set and the health
check returns a value, the environment snapshot holds the raw
`GOOGLE_APPLICATION_CREDENTIALS` value and the raw `GOOGLE_CSE_ID` value
verbatim; only the API key field is redacted (it is `None` or the fixed
placeholder, never the raw key). -/
theorem C10_health_snapshot_verbatim (env : Env) (w : World) (p : String)
    (h : HealthStatus)
    (hsa : env.googleApplicationCredentials = some p)
    (hh : get_search_health env w = .ok h) :
    h.env_google_application_credentials = some p ∧
    h.env_google_cse_id = env.googleCseId ∧
    (h.env_google_api_key = none ∨ h.env_google_api_key = some "***") := by
  unfold get_search_health at hh
  cases hres : get_google_credentials env w with
  | error e => rw [hres] at hh; cases hh
  | ok credentials =>
    rw [hres] at hh
    injection hh with hh2
    subst hh2
    refine ⟨hsa, rfl, ?_⟩
    by_cases hk : pyTruthyStr env.googleApiKey = true
    · right; simp [hk]
    · left; simp [hk]

/-- Witness for C10 at a concrete environment with a service-account file
configured. -/
theorem C10_health_snapshot_verbatim_witness :
    ({ status := "healthy", credentials_available := true,
       search_engine_id_set := false,
       env_google_application_credentials := some "sa.json",
       env_google_api_key := none,
       env_google_cse_id := none } :
        HealthStatus).env_google_application_credentials = some "sa.json" ∧
    ({ status := "healthy", credentials_available := true,
       search_engine_id_set := false,
       env_google_application_credentials := some "sa.json",
       env_google_api_key := none,
       env_google_cse_id := none } :
        HealthStatus).env_google_cse_id = envSA.googleCseId ∧
    (({ status := "healthy", credentials_available := true,
        search_engine_id_set := false,
        env_google_application_credentials := some "sa.json",
        env_google_api_key := none,
        env_google_cse_id := none } :
         HealthStatus).env_google_api_key = none ∨
      ({ status := "healthy", credentials_available := true,
         search_engine_id_set := false,
         env_google_application_credentials := some "sa.json",
         env_google_api_key := none,
         env_google_cse_id := none } :
          HealthStatus).env_google_api_key = some "***") :=
  C10_health_snapshot_verbatim envSA wSA "sa.json" _ rfl rfl

end ElosGoogleSearchMCP
